import Mathlib

/-!
# Verification of the movie-recommendation serving engine

Shallow embedding of `app/main.py` (FastAPI serving code), `app/schema.py`
(response schema) and `src/config.py` of the movie-recommendation-api
repository, together with proofs of the specification claims about it.

Modelling decisions:
* `float` prediction scores (`model.predict(...).est`) are modelled as `Rat`;
  the model itself is an opaque pure function `UserID → MovieID → Rat`,
  exactly as the spec treats it (an opaque scoring capability).
* The pandas Series `user_watch_list` (`{UserID: set(MovieIDs)}`) is an
  association list; `user_id in series` is index membership, `.get(uid, set())`
  is lookup-with-default.
* The `movies_df` DataFrame (index `MovieID`, columns `Title`, `Genres`) is a
  list of rows in load order; `.index.tolist()` is the list of `MovieID`s in
  row order, and `.loc[list_of_ids]` returns, for each requested label in
  request order, every row carrying that label, raising `KeyError`
  (an uncaught exception, surfaced by the framework as a 500 response) when
  some label is absent.
* `predictions.sort(key=lambda x: x[1], reverse=True)` is CPython's stable
  sort in descending key order (equal keys keep their original relative
  order).  Stable sorting with respect to a fixed total preorder has a unique
  result, so it is embedded as the structurally recursive stable descending
  insertion sort `sortDesc`.
-/

namespace RecSys

/-- `app/schema.py`: the Pydantic `Movie` model (`MovieID`, `Title`, `Genres`). -/
structure Movie where
  MovieID : Int
  Title : String
  Genres : String
deriving Repr, DecidableEq

/-- `app/schema.py`: the Pydantic `PredictionResponse` model
(`UserID` plus the list of recommended movies). -/
structure PredictionResponse where
  UserID : Int
  Recommendations : List Movie
deriving Repr, DecidableEq

/-- The opaque SVD model artifact: `model.predict(uid, iid).est`.
A pure scoring function, as in the spec's Scoring Adapter contract. -/
abbrev SVDModel := Int → Int → Rat

/-- `app/main.py`, class `ModelCache`: the three structures loaded at startup. -/
structure ModelCache where
  model : Option SVDModel
  movies_df : List Movie
  user_watch_list : List (Int × List Int)

/-- `src/config.py`: `TOP_K_RECOMMENDATIONS = 10`. -/
def TOP_K_RECOMMENDATIONS : Nat := 10

/-- An HTTP error response: `HTTPException(status_code, detail)`, or the
500 Internal Server Error the framework produces for an uncaught exception
(the `KeyError` of a failed `.loc`). -/
inductive ApiError where
  | http (status_code : Nat) (detail : String)
deriving Repr, DecidableEq

/-- `user_id in cache.user_watch_list` / `.get(user_id, ...)`:
lookup of a user's row in the watch-list Series. -/
def lookupUser (wl : List (Int × List Int)) (uid : Int) : Option (List Int) :=
  (wl.find? (fun p => p.1 == uid)).map (fun p => p.2)

/-- `user_id in cache.user_watch_list`: membership in the Series index. -/
def hasUser (wl : List (Int × List Int)) (uid : Int) : Bool :=
  (lookupUser wl uid).isSome

/-- `cache.user_watch_list.get(user_id, set())`: the user's seen set,
empty when the user is absent. -/
def watchedOf (wl : List (Int × List Int)) (uid : Int) : List Int :=
  (lookupUser wl uid).getD []

/-- One step of the stable descending insertion sort: insert `p` before the
first element whose score is `≤ p`'s score (so `p` precedes every
equal-scored element that occurred later in the original list). -/
def insertDesc (p : Int × Rat) : List (Int × Rat) → List (Int × Rat)
  | [] => [p]
  | q :: qs => if p.2 < q.2 then q :: insertDesc p qs else p :: q :: qs

/-- `predictions.sort(key=lambda x: x[1], reverse=True)`: the stable sort of
the `(movie_id, estimated_rating)` pairs by descending rating. -/
def sortDesc : List (Int × Rat) → List (Int × Rat)
  | [] => []
  | p :: ps => insertDesc p (sortDesc ps)

/-- `cache.movies_df.loc[ids]` followed by the `itertuples` reconstruction of
`Movie` rows: for each requested id, all rows with that index label, in
request order; `KeyError` (surfaced as an HTTP 500) if a label is absent. -/
def df_loc (df : List Movie) (ids : List Int) : Except ApiError (List Movie) :=
  if ids.all (fun i => df.any (fun m => m.MovieID == i)) then
    .ok (ids.flatMap (fun i => df.filter (fun m => m.MovieID == i)))
  else
    .error (.http 500 "Internal Server Error")

/-- Steps 1–3 of the handler: `all_movie_ids = cache.movies_df.index.tolist()`
and `movies_to_predict = [id for id in all_movie_ids if id not in watched]`. -/
def movies_to_predict (cache : ModelCache) (user_id : Int) : List Int :=
  (cache.movies_df.map (fun m => m.MovieID)).filter
    (fun movie_id =>
      ¬ (watchedOf cache.user_watch_list user_id).contains movie_id)

/-- Step 4 of the handler: `predictions = [(id, model.predict(uid=user_id,
iid=id).est) for id in movies_to_predict]`. -/
def predictions (model : SVDModel) (cache : ModelCache) (user_id : Int) :
    List (Int × Rat) :=
  (movies_to_predict cache user_id).map
    (fun movie_id => (movie_id, model user_id movie_id))

/-- Steps 5–6 of the handler: sort descending by estimated rating and keep
the first `TOP_K_RECOMMENDATIONS` pairs. -/
def top_k_preds (model : SVDModel) (cache : ModelCache) (user_id : Int) :
    List (Int × Rat) :=
  (sortDesc (predictions model cache user_id)).take TOP_K_RECOMMENDATIONS

/-- Step 6 of the handler: `top_k_movie_ids = [id for (id, rating) in
top_k_preds]`. -/
def top_k_movie_ids (model : SVDModel) (cache : ModelCache) (user_id : Int) :
    List Int :=
  (top_k_preds model cache user_id).map (fun p => p.1)

/-- `app/main.py`, `get_recommendations(user_id)`: the `/recommend/{user_id}`
handler body, over an explicit `ModelCache`. -/
def get_recommendations (cache : ModelCache) (user_id : Int) :
    Except ApiError PredictionResponse :=
  if ¬ hasUser cache.user_watch_list user_id then
    .error (.http 404 ("User ID " ++ toString user_id ++
      " not found in the ratings data."))
  else match cache.model with
  | none => .error (.http 503 "Model is not loaded.")
  | some model =>
    match df_loc cache.movies_df (top_k_movie_ids model cache user_id) with
    | .error e => .error e
    | .ok recommended_movies =>
      .ok { UserID := user_id, Recommendations := recommended_movies }

/-! ## Startup (`load_model_and_data`)

Each of the three `try:` blocks in `load_model_and_data` loads one file and
catches exactly `FileNotFoundError`.  A load attempt has three possible
outcomes: the file is present and parses (`ok`), the file is missing
(Python raises `FileNotFoundError`, which the `except` clause catches and
answers with `sys.exit(1)`), or the file is present but malformed/unparsable
(the loader raises some other exception — `FileNotFoundError` is raised only
for a missing file — which no `except` clause catches, so it propagates out
of the routine). -/

/-- Outcome of one startup file-load attempt (`joblib.load`,
`pd.read_pickle` + `set_index`, or `pd.read_csv` + `groupby`). -/
inductive LoadResult (α : Type) where
  | ok (v : α)
  | fileNotFound
  | malformed

/-- Whether the load attempt produced a value. -/
def LoadResult.isOk {α : Type} : LoadResult α → Bool
  | .ok _ => true
  | .fileNotFound => false
  | .malformed => false

/-- How the startup routine ends: the cache is fully populated, the process
is terminated via `sys.exit(code)`, or an exception escapes the routine. -/
inductive StartupOutcome where
  | complete (cache : ModelCache)
  | exitProcess (code : Nat)
  | uncaught

/-- Whether the startup routine itself terminated the process. -/
def StartupOutcome.isExit : StartupOutcome → Bool
  | .exitProcess _ => true
  | .complete _ => false
  | .uncaught => false

/-- `app/main.py`, `load_model_and_data()`: load the SVD model, the cleaned
movies table and the raw ratings (already grouped into the per-user watch
list), in that order; `sys.exit(1)` on `FileNotFoundError`, any other load
exception propagates uncaught. -/
def load_model_and_data (modelFile : LoadResult SVDModel)
    (moviesFile : LoadResult (List Movie))
    (ratingsFile : LoadResult (List (Int × List Int))) : StartupOutcome :=
  match modelFile with
  | .fileNotFound => .exitProcess 1
  | .malformed => .uncaught
  | .ok model =>
    match moviesFile with
    | .fileNotFound => .exitProcess 1
    | .malformed => .uncaught
    | .ok movies_df =>
      match ratingsFile with
      | .fileNotFound => .exitProcess 1
      | .malformed => .uncaught
      | .ok user_watch_list =>
        .complete { model := some model, movies_df := movies_df,
                    user_watch_list := user_watch_list }

/-! ## State-passing form of the handler

The handler only ever reads the process-wide `app.state.cache`; the
state-passing form makes every access to the cache explicit and returns the
cache the next request will observe, so that the frame property ("handling a
request leaves the loaded structures unchanged") is a statement about it. -/

/-- Read access `cache.user_watch_list`. -/
def readWatchList (c : ModelCache) : List (Int × List Int) × ModelCache :=
  (c.user_watch_list, c)

/-- Read access `cache.model`. -/
def readModel (c : ModelCache) : Option SVDModel × ModelCache :=
  (c.model, c)

/-- Read access `cache.movies_df`. -/
def readMoviesDf (c : ModelCache) : List Movie × ModelCache :=
  (c.movies_df, c)

/-- `get_recommendations` with the cache threaded through every access:
the first component is the response, the second is the cache as left behind
for the next request. -/
def get_recommendations_stateful (cache : ModelCache) (user_id : Int) :
    Except ApiError PredictionResponse × ModelCache :=
  let wlRead := readWatchList cache
  if ¬ hasUser wlRead.1 user_id then
    (.error (.http 404 ("User ID " ++ toString user_id ++
      " not found in the ratings data.")), wlRead.2)
  else
    let mRead := readModel wlRead.2
    match mRead.1 with
    | none => (.error (.http 503 "Model is not loaded."), mRead.2)
    | some model =>
      let dfRead := readMoviesDf mRead.2
      match df_loc dfRead.1 (top_k_movie_ids model dfRead.2 user_id) with
      | .error e => (.error e, dfRead.2)
      | .ok recommended_movies =>
        (.ok { UserID := user_id, Recommendations := recommended_movies },
         dfRead.2)

/-- Equality of two handler results is decidable (used to evaluate the
theorems below on concrete caches). -/
instance : DecidableEq (Except ApiError PredictionResponse) := fun a b =>
  match a, b with
  | .ok x, .ok y => decidable_of_iff (x = y) (by simp)
  | .error x, .error y => decidable_of_iff (x = y) (by simp)
  | .ok _, .error _ => isFalse (by simp)
  | .error _, .ok _ => isFalse (by simp)

/-! ## Concrete data used to evaluate the theorems -/

/-- A concrete scoring model: the estimated rating of a movie is its id. -/
def mEx : SVDModel := fun _ movie_id => (movie_id : Rat)

/-- A three-movie catalog. -/
def dfEx : List Movie :=
  [⟨1, "Toy Story", "Animation"⟩, ⟨2, "Jumanji", "Adventure"⟩,
   ⟨3, "Heat", "Action"⟩]

/-- User 1 has rated movie 2. -/
def wlEx : List (Int × List Int) := [(1, [2])]

/-- A fully loaded cache. -/
def cacheEx : ModelCache := ⟨some mEx, dfEx, wlEx⟩

/-- A second cache loaded with the same three structures. -/
def cacheEx2 : ModelCache := ⟨some mEx, dfEx, wlEx⟩

/-- The response the handler produces for user 1 on `cacheEx`: movies 1 and 3
are unseen, and movie 3 scores higher. -/
def respEx : PredictionResponse :=
  ⟨1, [⟨3, "Heat", "Action"⟩, ⟨1, "Toy Story", "Animation"⟩]⟩

/-- A cache whose model is unbound and whose watch list knows user 1. -/
def cacheNoModel : ModelCache := ⟨none, dfEx, wlEx⟩

/-- A cache whose model is unbound and whose watch list is empty. -/
def cacheEmptyUsers : ModelCache := ⟨none, dfEx, []⟩

/-! ## Properties of the stable descending sort -/

theorem insertDesc_perm (p : Int × Rat) (l : List (Int × Rat)) :
    (insertDesc p l).Perm (p :: l) := by
  induction l with
  | nil => exact List.Perm.refl _
  | cons q qs ih =>
    simp only [insertDesc]
    split
    · exact (ih.cons q).trans (List.Perm.swap p q qs)
    · exact List.Perm.refl _

theorem sortDesc_perm (l : List (Int × Rat)) : (sortDesc l).Perm l := by
  induction l with
  | nil => exact List.Perm.refl _
  | cons p ps ih =>
    exact (insertDesc_perm p (sortDesc ps)).trans (ih.cons p)

theorem insertDesc_pairwise (p : Int × Rat) (l : List (Int × Rat))
    (h : l.Pairwise (fun a b => b.2 ≤ a.2)) :
    (insertDesc p l).Pairwise (fun a b => b.2 ≤ a.2) := by
  induction l with
  | nil => simp [insertDesc]
  | cons q qs ih =>
    rcases List.pairwise_cons.mp h with ⟨hq, hqs⟩
    simp only [insertDesc]
    split
    · rename_i hlt
      refine List.pairwise_cons.mpr ⟨?_, ih hqs⟩
      intro b hb
      rcases List.mem_cons.mp ((insertDesc_perm p qs).mem_iff.mp hb) with
        hbp | hbqs
      · rw [hbp]; exact le_of_lt hlt
      · exact hq b hbqs
    · rename_i hnlt
      refine List.pairwise_cons.mpr ⟨?_, List.pairwise_cons.mpr ⟨hq, hqs⟩⟩
      intro b hb
      rcases List.mem_cons.mp hb with hbq | hbqs
      · rw [hbq]; exact le_of_not_lt hnlt
      · exact le_trans (hq b hbqs) (le_of_not_lt hnlt)

theorem sortDesc_pairwise (l : List (Int × Rat)) :
    (sortDesc l).Pairwise (fun a b => b.2 ≤ a.2) := by
  induction l with
  | nil => simp [sortDesc]
  | cons p ps ih => exact insertDesc_pairwise p (sortDesc ps) ih

/-! ## Properties of the pipeline stages -/

/-- Every pair in the sorted prediction list is a
`(movie_id, model user_id movie_id)` pair. -/
theorem snd_eq_of_mem_sortDesc_predictions {model : SVDModel}
    {cache : ModelCache} {user_id : Int} {p : Int × Rat}
    (hp : p ∈ sortDesc (predictions model cache user_id)) :
    p.2 = model user_id p.1 := by
  have hmem : p ∈ predictions model cache user_id :=
    (sortDesc_perm _).mem_iff.mp hp
  rcases List.mem_map.mp hmem with ⟨i, _, hi⟩
  rw [← hi]

/-- Every id surviving to the top-K selection is an unwatched catalog id. -/
theorem mem_movies_to_predict_of_mem_top_k {model : SVDModel}
    {cache : ModelCache} {user_id : Int} {i : Int}
    (hi : i ∈ top_k_movie_ids model cache user_id) :
    i ∈ movies_to_predict cache user_id := by
  rcases List.mem_map.mp hi with ⟨p, hp, hpi⟩
  have hsorted : p ∈ sortDesc (predictions model cache user_id) :=
    (List.take_sublist _ _).mem hp
  have hpred : p ∈ predictions model cache user_id :=
    (sortDesc_perm _).mem_iff.mp hsorted
  rcases List.mem_map.mp hpred with ⟨j, hj, hji⟩
  rw [← hpi, ← hji]
  exact hj

/-- The unwatched candidates: catalog membership and the non-overlap
property, by `List.mem_filter`. -/
theorem mem_movies_to_predict_iff {cache : ModelCache} {user_id : Int}
    {i : Int} :
    i ∈ movies_to_predict cache user_id ↔
      i ∈ cache.movies_df.map (fun m => m.MovieID) ∧
        ¬ (watchedOf cache.user_watch_list user_id).contains i := by
  unfold movies_to_predict
  rw [List.mem_filter]
  simp

/-- `df_loc` succeeds exactly when every requested id labels some row. -/
theorem df_loc_ok_of_mem {df : List Movie} {ids : List Int}
    (h : ∀ i ∈ ids, i ∈ df.map (fun m => m.MovieID)) :
    df_loc df ids =
      .ok (ids.flatMap (fun i => df.filter (fun m => m.MovieID == i))) := by
  unfold df_loc
  rw [if_pos]
  rw [List.all_eq_true]
  intro i hi
  rcases List.mem_map.mp (h i hi) with ⟨m, hm, hmi⟩
  rw [List.any_eq_true]
  exact ⟨m, hm, by simp [hmi]⟩

/-- Inverting a successful `df_loc`: every returned row is a catalog row
whose id was requested. -/
theorem mem_of_df_loc_ok {df : List Movie} {ids : List Int}
    {rows : List Movie} (h : df_loc df ids = .ok rows) {m : Movie}
    (hm : m ∈ rows) : m ∈ df ∧ m.MovieID ∈ ids := by
  unfold df_loc at h
  split at h
  · rcases h with ⟨⟩
    rcases List.mem_flatMap.mp hm with ⟨i, hi, hmf⟩
    rcases List.mem_filter.mp hmf with ⟨hmdf, hmi⟩
    refine ⟨hmdf, ?_⟩
    have : m.MovieID = i := by simpa using hmi
    rw [this]; exact hi
  · cases h

/-- Inverting a successful request: the user is known, a model is bound, and
the response rows come from a successful `df_loc` on the top-K ids. -/
theorem get_recommendations_ok_inv {cache : ModelCache} {user_id : Int}
    {resp : PredictionResponse}
    (h : get_recommendations cache user_id = .ok resp) :
    hasUser cache.user_watch_list user_id = true ∧
      ∃ model, cache.model = some model ∧
        df_loc cache.movies_df (top_k_movie_ids model cache user_id) =
          .ok resp.Recommendations ∧
        resp.UserID = user_id := by
  unfold get_recommendations at h
  split at h
  · cases h
  · rename_i hu
    refine ⟨by simpa using hu, ?_⟩
    split at h
    · cases h
    · rename_i model hm
      refine ⟨model, hm, ?_⟩
      split at h
      · cases h
      · rename_i rows hrows
        rcases h with ⟨⟩
        exact ⟨hrows, rfl⟩

/-- A successful `df_loc` returns exactly the concatenation of the matching
row groups, in request order. -/
theorem df_loc_ok_eq {df : List Movie} {ids : List Int} {rows : List Movie}
    (h : df_loc df ids = .ok rows) :
    rows = ids.flatMap (fun i => df.filter (fun m => m.MovieID == i)) := by
  unfold df_loc at h
  split at h
  · rw [Except.ok.injEq] at h
    exact h.symm
  · cases h

/-- When every id labels exactly one row, `df_loc` returns one row per
requested id. -/
theorem length_flatMap_of_singletons {ids : List Int} {g : Int → List Movie}
    (h : ∀ i ∈ ids, (g i).length = 1) :
    (ids.flatMap g).length = ids.length := by
  induction ids with
  | nil => simp
  | cons i rest ih =>
    simp only [List.flatMap_cons, List.length_append, List.length_cons]
    rw [h i (List.mem_cons_self i rest),
      ih (fun j hj => h j (List.mem_cons_of_mem i hj))]
    omega

/-- With a duplicate-free catalog index, each present id labels exactly one
row. -/
theorem filter_movieId_length_one {df : List Movie} {i : Int}
    (hnodup : (df.map (fun m => m.MovieID)).Nodup)
    (hi : i ∈ df.map (fun m => m.MovieID)) :
    (df.filter (fun m => m.MovieID == i)).length = 1 := by
  have h1 : (df.map (fun m => m.MovieID)).count i = 1 :=
    List.count_eq_one_of_mem hnodup hi
  rw [List.count_eq_countP, List.countP_map, List.countP_eq_length_filter]
    at h1
  simpa [Function.comp] using h1

/-- The estimated ratings of the top-K ids, read off in ranked order, are
non-increasing. -/
theorem top_k_scores_pairwise (model : SVDModel) (cache : ModelCache)
    (user_id : Int) :
    ((top_k_movie_ids model cache user_id).map
      (fun i => model user_id i)).Pairwise (fun a b => b ≤ a) := by
  unfold top_k_movie_ids
  rw [List.map_map, List.pairwise_map]
  have hpw : (top_k_preds model cache user_id).Pairwise
      (fun a b => b.2 ≤ a.2) :=
    List.Pairwise.sublist (List.take_sublist _ _) (sortDesc_pairwise _)
  refine hpw.imp_of_mem ?_
  intro a b ha hb hab
  have ha2 := snd_eq_of_mem_sortDesc_predictions
    ((List.take_sublist _ _).mem ha)
  have hb2 := snd_eq_of_mem_sortDesc_predictions
    ((List.take_sublist _ _).mem hb)
  simp only [Function.comp]
  rw [← ha2, ← hb2]
  exact hab

/-- Pushing a non-increasing score sequence through the row lookup: the rows
returned for the ranked ids, read in order, still have non-increasing
scores (every row of the group of id `i` scores exactly `S i`). -/
theorem pairwise_scores_flatMap {df : List Movie} {S : Int → Rat}
    {ids : List Int} (hs : (ids.map S).Pairwise (fun a b => b ≤ a)) :
    (((ids.flatMap (fun i => df.filter (fun m => m.MovieID == i))).map
      (fun m => S m.MovieID)).Pairwise (fun a b => b ≤ a)) := by
  induction ids with
  | nil => simp
  | cons i rest ih =>
    rw [List.map_cons, List.pairwise_cons] at hs
    obtain ⟨hi, hrest⟩ := hs
    rw [List.flatMap_cons, List.map_append, List.pairwise_append]
    refine ⟨?_, ih hrest, ?_⟩
    · apply List.pairwise_of_forall_mem_list
      intro a ha b hb
      rcases List.mem_map.mp ha with ⟨m, hm, rfl⟩
      rcases List.mem_map.mp hb with ⟨m', hm', rfl⟩
      have h1 : m.MovieID = i := by
        simpa using (List.mem_filter.mp hm).2
      have h2 : m'.MovieID = i := by
        simpa using (List.mem_filter.mp hm').2
      rw [h1, h2]
    · intro a ha b hb
      rcases List.mem_map.mp ha with ⟨m, hm, rfl⟩
      rcases List.mem_map.mp hb with ⟨m', hm', rfl⟩
      have h1 : m.MovieID = i := by
        simpa using (List.mem_filter.mp hm).2
      rcases List.mem_flatMap.mp hm' with ⟨j, hj, hmf⟩
      have h2 : m'.MovieID = j := by
        simpa using (List.mem_filter.mp hmf).2
      rw [h1, h2]
      exact hi (S j) (List.mem_map_of_mem S hj)

/-! ## The specification claims -/

/-- C1: for every user id present in the interaction index, the
recommendation list returned by `get_recommendations` contains no movie id
from that user's seen-items set — every returned `MovieID` is outside
`user_watch_list[user_id]`.  (A successful response implies the user is
present in the index.) -/
theorem recommend_excludes_watched (cache : ModelCache) (user_id : Int)
    (resp : PredictionResponse)
    (h : get_recommendations cache user_id = .ok resp) :
    ∀ m ∈ resp.Recommendations,
      m.MovieID ∉ watchedOf cache.user_watch_list user_id := by
  obtain ⟨-, model, -, hloc, -⟩ := get_recommendations_ok_inv h
  intro m hmem
  obtain ⟨-, hid⟩ := mem_of_df_loc_ok hloc hmem
  have hnc := (mem_movies_to_predict_iff.mp
    (mem_movies_to_predict_of_mem_top_k hid)).2
  simpa using hnc

/-- Evaluates `recommend_excludes_watched` on `cacheEx` and user 1. -/
theorem recommend_excludes_watched_witness :
    get_recommendations cacheEx 1 = .ok respEx ∧
    ∀ m ∈ respEx.Recommendations,
      m.MovieID ∉ watchedOf cacheEx.user_watch_list 1 :=
  ⟨rfl, recommend_excludes_watched cacheEx 1 respEx rfl⟩

/-- C2: for every known user (successful request), the length of the
returned list equals `min(TOP_K_RECOMMENDATIONS, number of catalog movie ids
not in the user's seen set)`, the catalog index being duplicate-free. -/
theorem recommend_length_eq_min (cache : ModelCache) (user_id : Int)
    (resp : PredictionResponse)
    (hnodup : (cache.movies_df.map (fun m => m.MovieID)).Nodup)
    (h : get_recommendations cache user_id = .ok resp) :
    resp.Recommendations.length =
      min TOP_K_RECOMMENDATIONS (movies_to_predict cache user_id).length := by
  obtain ⟨-, model, -, hloc, -⟩ := get_recommendations_ok_inv h
  rw [df_loc_ok_eq hloc]
  have hone : ∀ i ∈ top_k_movie_ids model cache user_id,
      (cache.movies_df.filter (fun m => m.MovieID == i)).length = 1 :=
    fun i hi => filter_movieId_length_one hnodup
      ((mem_movies_to_predict_iff.mp
        (mem_movies_to_predict_of_mem_top_k hi)).1)
  rw [length_flatMap_of_singletons hone]
  unfold top_k_movie_ids top_k_preds
  rw [List.length_map, List.length_take, (sortDesc_perm _).length_eq]
  unfold predictions
  rw [List.length_map]

/-- Evaluates `recommend_length_eq_min` on `cacheEx` and user 1 (two unseen
catalog movies, so the list has `min 10 2 = 2` entries). -/
theorem recommend_length_eq_min_witness :
    (cacheEx.movies_df.map (fun m => m.MovieID)).Nodup ∧
    get_recommendations cacheEx 1 = .ok respEx ∧
    respEx.Recommendations.length =
      min TOP_K_RECOMMENDATIONS (movies_to_predict cacheEx 1).length :=
  ⟨by decide, rfl, recommend_length_eq_min cacheEx 1 respEx (by decide) rfl⟩

/-- C3: for every known user, the returned list is ordered by descending
predicted score: reading off the model's estimated rating of each returned
movie in order gives a non-increasing sequence (so every adjacent pair
satisfies `score[i] ≥ score[i+1]`). -/
theorem recommend_sorted_desc (cache : ModelCache) (user_id : Int)
    (model : SVDModel) (resp : PredictionResponse)
    (hm : cache.model = some model)
    (h : get_recommendations cache user_id = .ok resp) :
    (resp.Recommendations.map (fun m => model user_id m.MovieID)).Pairwise
      (fun a b => b ≤ a) := by
  obtain ⟨-, model', hm', hloc, -⟩ := get_recommendations_ok_inv h
  rw [hm] at hm'
  obtain rfl : model = model' := Option.some_inj.mp hm'
  rw [df_loc_ok_eq hloc]
  exact @pairwise_scores_flatMap cache.movies_df (fun i => model user_id i)
    (top_k_movie_ids model cache user_id)
    (top_k_scores_pairwise model cache user_id)

/-- Evaluates `recommend_sorted_desc` on `cacheEx` and user 1. -/
theorem recommend_sorted_desc_witness :
    cacheEx.model = some mEx ∧
    get_recommendations cacheEx 1 = .ok respEx ∧
    (respEx.Recommendations.map (fun m => mEx 1 m.MovieID)).Pairwise
      (fun a b => b ≤ a) :=
  ⟨rfl, rfl, recommend_sorted_desc cacheEx 1 mEx respEx rfl rfl⟩

/-- C4: for every user id absent from the interaction index,
`get_recommendations` fails with a 404 whose detail is exactly
`"User ID {id} not found in the ratings data."` (so it contains the
submitted id), and never returns a recommendation list — empty or
otherwise — for such a user. -/
theorem unknown_user_404 (cache : ModelCache) (user_id : Int)
    (h : hasUser cache.user_watch_list user_id = false) :
    get_recommendations cache user_id =
      .error (.http 404 ("User ID " ++ toString user_id ++
        " not found in the ratings data.")) ∧
    ∀ resp, get_recommendations cache user_id ≠ .ok resp := by
  have herr : get_recommendations cache user_id =
      .error (.http 404 ("User ID " ++ toString user_id ++
        " not found in the ratings data.")) := by
    unfold get_recommendations
    rw [if_pos (by simp [h])]
  refine ⟨herr, fun resp hcon => ?_⟩
  rw [herr] at hcon
  cases hcon

/-- Evaluates `unknown_user_404` on the cache with an empty watch list and
user 999999. -/
theorem unknown_user_404_witness :
    hasUser cacheEmptyUsers.user_watch_list 999999 = false ∧
    (get_recommendations cacheEmptyUsers 999999 =
      .error (.http 404 ("User ID " ++ toString (999999 : Int) ++
        " not found in the ratings data.")) ∧
     ∀ resp, get_recommendations cacheEmptyUsers 999999 ≠ .ok resp) :=
  ⟨rfl, unknown_user_404 cacheEmptyUsers 999999 rfl⟩

/-- C5 counterexample: with the model artifact present but malformed (and
the other two files fine), `load_model_and_data` does not terminate the
process via `sys.exit` at all — only `FileNotFoundError` is caught, so the
loader's exception escapes the routine (`uncaught`), refuting the claim
that the routine exits with a nonzero code in every missing-or-malformed
case. -/
theorem malformed_model_file_no_exit :
    load_model_and_data LoadResult.malformed (.ok dfEx) (.ok wlEx) =
      .uncaught ∧
    (load_model_and_data LoadResult.malformed (.ok dfEx)
      (.ok wlEx)).isExit = false :=
  ⟨rfl, rfl⟩

/-- C5 (amended): if any startup input file is missing or malformed,
startup never completes (no requests are served); a missing file makes
`load_model_and_data` call `sys.exit(1)` after logging, while a
present-but-malformed file makes the loader's exception propagate uncaught
out of the routine. -/
theorem startup_failure_never_serves (modelFile : LoadResult SVDModel)
    (moviesFile : LoadResult (List Movie))
    (ratingsFile : LoadResult (List (Int × List Int)))
    (h : ¬ (modelFile.isOk = true ∧ moviesFile.isOk = true ∧
      ratingsFile.isOk = true)) :
    (∀ cache, load_model_and_data modelFile moviesFile ratingsFile ≠
      .complete cache) ∧
    (load_model_and_data modelFile moviesFile ratingsFile =
      .exitProcess 1 ∨
     load_model_and_data modelFile moviesFile ratingsFile = .uncaught) := by
  cases modelFile <;> cases moviesFile <;> cases ratingsFile <;>
    simp_all [load_model_and_data, LoadResult.isOk]

/-- Evaluates `startup_failure_never_serves` with a missing model file. -/
theorem startup_failure_never_serves_witness :
    (¬ ((LoadResult.fileNotFound : LoadResult SVDModel).isOk = true ∧
      (LoadResult.ok dfEx).isOk = true ∧
      (LoadResult.ok wlEx).isOk = true)) ∧
    ((∀ cache, load_model_and_data LoadResult.fileNotFound (.ok dfEx)
        (.ok wlEx) ≠ .complete cache) ∧
     (load_model_and_data LoadResult.fileNotFound (.ok dfEx) (.ok wlEx) =
        .exitProcess 1 ∨
      load_model_and_data LoadResult.fileNotFound (.ok dfEx) (.ok wlEx) =
        .uncaught)) :=
  ⟨by simp [LoadResult.isOk],
   startup_failure_never_serves _ _ _ (by simp [LoadResult.isOk])⟩

/-- C6: calling `get_recommendations` twice for the same user id against
identical loaded state (same model, same movies catalog, same watch list)
yields identical output, including ordering. -/
theorem recommend_deterministic (c1 c2 : ModelCache) (user_id : Int)
    (hm : c1.model = c2.model) (hdf : c1.movies_df = c2.movies_df)
    (hwl : c1.user_watch_list = c2.user_watch_list) :
    get_recommendations c1 user_id = get_recommendations c2 user_id := by
  cases c1
  cases c2
  cases hm
  cases hdf
  cases hwl
  rfl

/-- Evaluates `recommend_deterministic` on the twin caches `cacheEx` and
`cacheEx2`. -/
theorem recommend_deterministic_witness :
    cacheEx.model = cacheEx2.model ∧
    cacheEx.movies_df = cacheEx2.movies_df ∧
    cacheEx.user_watch_list = cacheEx2.user_watch_list ∧
    get_recommendations cacheEx 1 = get_recommendations cacheEx2 1 :=
  ⟨rfl, rfl, rfl, recommend_deterministic cacheEx cacheEx2 1 rfl rfl rfl⟩

/-- C7 counterexample: with the model unbound but the requested user absent
from the watch list, the handler answers 404, not 503 — the user-existence
check precedes the model check, refuting the claim for requests by unknown
users. -/
theorem model_unbound_unknown_user_not_503 :
    get_recommendations cacheEmptyUsers 1 =
      .error (.http 404 ("User ID " ++ toString (1 : Int) ++
        " not found in the ratings data.")) ∧
    get_recommendations cacheEmptyUsers 1 ≠
      .error (.http 503 "Model is not loaded.") :=
  ⟨rfl, by decide⟩

/-- C7 (amended): when the scoring model is unbound (`model is None`) and
the submitted user id is present in the watch list, `get_recommendations`
fails with a 503 error whose body is `{"detail": "Model is not loaded."}`. -/
theorem model_unbound_known_user_503 (cache : ModelCache) (user_id : Int)
    (hu : hasUser cache.user_watch_list user_id = true)
    (hm : cache.model = none) :
    get_recommendations cache user_id =
      .error (.http 503 "Model is not loaded.") := by
  unfold get_recommendations
  rw [if_neg (by simp [hu]), hm]

/-- Evaluates `model_unbound_known_user_503` on `cacheNoModel` and user 1. -/
theorem model_unbound_known_user_503_witness :
    hasUser cacheNoModel.user_watch_list 1 = true ∧
    cacheNoModel.model = none ∧
    get_recommendations cacheNoModel 1 =
      .error (.http 503 "Model is not loaded.") :=
  ⟨rfl, rfl, model_unbound_known_user_503 cacheNoModel 1 rfl rfl⟩

/-- C9: handling a request leaves the three loaded structures unchanged —
the cache the state-passing handler leaves behind is exactly the cache it
received, and the response is computed fresh from that cache (it agrees with
the pure function of the cache and the request). -/
theorem handler_preserves_cache (cache : ModelCache) (user_id : Int) :
    (get_recommendations_stateful cache user_id).2 = cache ∧
    (get_recommendations_stateful cache user_id).1 =
      get_recommendations cache user_id := by
  by_cases hu : hasUser cache.user_watch_list user_id
  · cases hmod : cache.model with
    | none =>
      simp [get_recommendations_stateful, get_recommendations, readWatchList,
        readModel, readMoviesDf, hu, hmod]
    | some model =>
      cases hloc : df_loc cache.movies_df
          (top_k_movie_ids model cache user_id) with
      | error e =>
        simp [get_recommendations_stateful, get_recommendations,
          readWatchList, readModel, readMoviesDf, hu, hmod, hloc]
      | ok rows =>
        simp [get_recommendations_stateful, get_recommendations,
          readWatchList, readModel, readMoviesDf, hu, hmod, hloc]
  · simp [get_recommendations_stateful, get_recommendations, readWatchList,
      readModel, readMoviesDf, hu]

/-- C10: for a known user with a bound model, every id surviving to the
top-K selection is an element of the catalog's index, so the `.loc` catalog
lookup succeeds and the internal data-corruption 500 branch is unreachable:
the request returns a successful response. -/
theorem known_user_request_succeeds (cache : ModelCache) (user_id : Int)
    (model : SVDModel)
    (hu : hasUser cache.user_watch_list user_id = true)
    (hm : cache.model = some model) :
    (∀ i ∈ top_k_movie_ids model cache user_id,
      i ∈ cache.movies_df.map (fun m => m.MovieID)) ∧
    df_loc cache.movies_df (top_k_movie_ids model cache user_id) =
      .ok ((top_k_movie_ids model cache user_id).flatMap
        (fun i => cache.movies_df.filter (fun m => m.MovieID == i))) ∧
    ∃ resp, get_recommendations cache user_id = .ok resp := by
  have hids : ∀ i ∈ top_k_movie_ids model cache user_id,
      i ∈ cache.movies_df.map (fun m => m.MovieID) := fun i hi =>
    (mem_movies_to_predict_iff.mp
      (mem_movies_to_predict_of_mem_top_k hi)).1
  have hloc := df_loc_ok_of_mem hids
  refine ⟨hids, hloc,
    ⟨⟨user_id, (top_k_movie_ids model cache user_id).flatMap
      (fun i => cache.movies_df.filter (fun m => m.MovieID == i))⟩, ?_⟩⟩
  unfold get_recommendations
  rw [if_neg (by simp [hu]), hm]
  simp only [hloc]

/-- Evaluates `known_user_request_succeeds` on `cacheEx` and user 1. -/
theorem known_user_request_succeeds_witness :
    hasUser cacheEx.user_watch_list 1 = true ∧
    cacheEx.model = some mEx ∧
    ((∀ i ∈ top_k_movie_ids mEx cacheEx 1,
        i ∈ cacheEx.movies_df.map (fun m => m.MovieID)) ∧
      df_loc cacheEx.movies_df (top_k_movie_ids mEx cacheEx 1) =
        .ok ((top_k_movie_ids mEx cacheEx 1).flatMap
          (fun i => cacheEx.movies_df.filter (fun m => m.MovieID == i))) ∧
      ∃ resp, get_recommendations cacheEx 1 = .ok resp) :=
  ⟨rfl, rfl, known_user_request_succeeds cacheEx 1 mEx rfl rfl⟩

end RecSys
